import Mathlib

/-!
Verification of the natural-language specification of `message-ix-models`
(files `tools/exo_data.py` and `model/water/data/water_for_ppl.py`) against a
shallow Lean embedding of those two modules.

Modelling conventions:
* Python strings are Lean `String`s; operations that the Lean kernel cannot
  reduce (`startsWith`, `endsWith`, `lower`, `drop`) are re-implemented over
  the underlying character list so that concrete witnesses evaluate.
* Python dicts are association lists with first-match lookup (`alookup`) and
  Python-style assignment (`dictSet`: overwrite in place, else append).
* A Python constructor that may raise (any exception class) is a function
  returning `Option`; a function that may raise returns `Except String`.
* pandas data frames are lists of row structures carrying exactly the columns
  the code reads or writes; numeric columns are `ℚ` (the code's float
  arithmetic is modelled exactly, as rational arithmetic).
-/

/-- Python `str.lower()` restricted to the ASCII data actually used. -/
def strLower (s : String) : String := String.mk (s.data.map Char.toLower)

/-- Python `str.startswith(pre)`. -/
def strStartsWith (s pre : String) : Bool := pre.data.isPrefixOf s.data

/-- Python `str.endswith(suf)`. -/
def strEndsWith (s suf : String) : Bool := suf.data.isSuffixOf s.data

/-- Python slicing `s[n:]`. -/
def strDrop (s : String) (n : Nat) : String := String.mk (s.data.drop n)

/-- Python `needle in hay` on strings: substring containment. -/
def containsSub (needle : List Char) : List Char → Bool
  | [] => needle.isEmpty
  | c :: cs => needle.isPrefixOf (c :: cs) || containsSub needle cs

/-- The text before the first occurrence of `sep`; component 0 of Python
`str.split(sep)`. If `sep` does not occur, the whole string. -/
def untilSep (sep : List Char) : List Char → List Char
  | [] => []
  | c :: cs => if sep.isPrefixOf (c :: cs) then [] else c :: untilSep sep cs

/-- Python `repr` of a string, for the strings appearing in error messages
(no embedded quotes or escapes). -/
def pyRepr (s : String) : String := "'" ++ s ++ "'"

/-- First-match association-list lookup: Python `d[k]` / `d.get(k)`. -/
def alookup {κ α : Type} [DecidableEq κ] : List (κ × α) → κ → Option α
  | [], _ => none
  | (k2, v) :: rest, k => if k = k2 then some v else alookup rest k

/-- Python dict assignment `d[k] = v`: overwrite the existing entry in place,
otherwise append a new entry at the end. -/
def dictSet {κ α : Type} [DecidableEq κ] : List (κ × α) → κ → α → List (κ × α)
  | [], k, v => [(k, v)]
  | p :: rest, k, v => if p.1 = k then (k, v) :: rest else p :: dictSet rest k v

theorem alookup_dictSet_self {κ α : Type} [DecidableEq κ]
    (rs : List (κ × α)) (k : κ) (v : α) : alookup (dictSet rs k v) k = some v := by
  induction rs with
  | nil => simp [dictSet, alookup]
  | cons p rest ih =>
    by_cases h : p.1 = k
    · simp [dictSet, h, alookup]
    · have h2 : k ≠ p.1 := fun he => h he.symm
      simp [dictSet, h, alookup, h2, ih]

theorem alookup_dictSet_ne {κ α : Type} [DecidableEq κ]
    (rs : List (κ × α)) (k k2 : κ) (v : α) (h : k2 ≠ k) :
    alookup (dictSet rs k v) k2 = alookup rs k2 := by
  induction rs with
  | nil => simp [dictSet, alookup, h]
  | cons p rest ih =>
    by_cases hp : p.1 = k
    · subst hp
      simp [dictSet, alookup, h, ih]
    · simp [dictSet, hp, alookup, ih]

theorem strMk_data (s : String) : String.mk s.data = s := by
  cases s
  rfl

theorem ne_append_plus_agg (s : String) : s ≠ s ++ "+" ++ "agg" := by
  intro h
  have h2 := congrArg (fun t => t.data.length) h
  simp [String.data_append] at h2

theorem append_plus_agg_ne (s : String) : s ++ "+" ++ "agg" ≠ "y0 indexed" := by
  intro h
  have h2 : (s ++ "+" ++ "agg").data = ("y0 indexed" : String).data := by rw [h]
  rw [String.data_append, String.data_append] at h2
  have h3 := congrArg List.reverse h2
  simp [List.reverse_append] at h3

namespace ExoData

/-! Embedding of `message_ix_models/tools/exo_data.py`. -/

/-- A genno `Quantity`, abstracted to the labelled dimensions it carries
(the only aspect of the external collaborator the claims mention). -/
structure Quantity where
  dims : List String
deriving DecidableEq

/-- `genno.computations.select` with scalar indexers: with `drop = true` the
indexed dimensions are removed from the result. -/
def select (q : Quantity) (indexers : List (String × String)) (drop : Bool) : Quantity :=
  if drop then { dims := q.dims.filter (fun d => (alookup indexers d).isNone) } else q

/-- Keyword options for a source (`source_kw`), a string-valued mapping. -/
abbrev SourceKw := List (String × String)

/-- A successfully constructed `ExoDataSource` instance: its class `id`
attribute plus the data its `__call__` returns. -/
structure Provider where
  id : String
  call : Quantity
deriving DecidableEq

/-- An `ExoDataSource` subclass: its `id` plus its `__init__`, which either
constructs an instance or raises (modelled as `none` — any exception class
counts, per the `except Exception` in `prepare_computer`). -/
structure ProviderClass where
  id : String
  init : String → SourceKw → Option Provider

/-- `MEASURES = ("GDP", "POP")`, line 30. -/
def MEASURES : List String := ["GDP", "POP"]

/-- One iteration of the trial-instantiation loop, lines 128-132: a
successful construction overwrites `source_obj`; an exception (of any class,
per `except Exception`) leaves it unchanged. -/
def sourceStep (source : String) (kw : SourceKw) (acc : Option Provider)
    (cls : ProviderClass) : Option Provider :=
  match cls.init source kw with | some p => some p | none => acc

/-- The trial-instantiation loop of `prepare_computer`, lines 126-132:
every class in registry order is tried; there is no early exit. -/
def lookupSource (registry : List ProviderClass) (source : String) (kw : SourceKw) :
    Option Provider :=
  registry.foldl (sourceStep source kw) none

/-- A genno `Key`: name, dimensions, optional tag. -/
structure GKey where
  name : String
  dims : List String
  tag : Option String
deriving DecidableEq

/-- genno `Key.__add__` with a string: attach a tag, joining an existing tag
with `+`. -/
def GKey.addTag (k : GKey) (t : String) : GKey :=
  { k with tag := match k.tag with | none => some t | some s => some (s ++ "+" ++ t) }

/-- A key of the genno `Computer` graph: either a plain string key such as
`"n::codes"` or a structured `Key`. -/
inductive CKey where
  | str (s : String)
  | key (k : GKey)
deriving DecidableEq

/-- The tasks `prepare_computer` adds to the graph, each recording the
operation and the keys of its inputs (the dependency structure). -/
inductive Task where
  | quotedNodeCodes (codelist : String)
  | codelistToGroups (codes : CKey)
  | quotedYears (codelist : String)
  | itemgetterZero (years : CKey)
  | yCoords (years : CKey)
  | y0Coord (year : CKey)
  | source (p : Provider)
  | aggregate (input groups : CKey) (keep : Bool)
  | interpolate (input coords : CKey) (fillValue : String)
  | indexTo (input coord : CKey)
deriving DecidableEq

/-- The genno `Computer` task graph: a dict from keys to tasks. -/
abbrev Computer := List (CKey × Task)

/-- `Computer.add` with an explicit `strict` flag: with `strict`, raise
(`KeyExistsError`) if the key is already present; otherwise overwrite. -/
def Computer.addKey (c : Computer) (strict : Bool) (k : CKey) (t : Task) :
    Except String Computer :=
  if strict && (alookup c k).isSome then Except.error "key already exists"
  else Except.ok (dictSet c k t)

/-- A `log` record emitted by `prepare_computer` (structured, rather than the
formatted message text). -/
inductive LogEntry where
  | measureWarning (measure : String)
deriving DecidableEq

/-- The fields of the `Context` that `prepare_computer` reads:
`context.model.regions` and `context.model.years`. -/
structure ModelContext where
  regions : String
  years : String
deriving DecidableEq

/-- Lines 116-123: `measure := source_kw.get("measure")` under Python
truthiness (a missing key or empty string falls back to `"UNKNOWN"`). -/
def resolvedMeasure (kw : SourceKw) : String :=
  match alookup kw "measure" with
  | some m => if m = "" then "UNKNOWN" else m
  | none => "UNKNOWN"

/-- Lines 117-121: a warning is logged — and nothing else happens — when a
truthy `measure` is not in `MEASURES`. -/
def measureLog (kw : SourceKw) : List LogEntry :=
  match alookup kw "measure" with
  | some m => if m = "" then [] else if m ∈ MEASURES then [] else [LogEntry.measureWarning m]
  | none => []

/-- Lines 147-158: the period-list keys `"y"`, `"y0"` (only when absent) and
the coordinate keys `"y::coords"`, `"y0::coord"` (always, overwriting). -/
def structureYKeys (c : Computer) (ctx : ModelContext) : Computer :=
  let c := if (alookup c (CKey.str "y")).isSome then c
    else dictSet c (CKey.str "y") (Task.quotedYears ("year/" ++ ctx.years))
  let c := if (alookup c (CKey.str "y0")).isSome then c
    else dictSet c (CKey.str "y0") (Task.itemgetterZero (CKey.str "y"))
  let c := dictSet c (CKey.str "y::coords") (Task.yCoords (CKey.str "y"))
  dictSet c (CKey.str "y0::coord") (Task.y0Coord (CKey.str "y0"))

/-- Line 161: `Key(measure.lower(), "ny")`. -/
def measureKey (measure : String) : GKey :=
  { name := strLower measure, dims := ["n", "y"], tag := none }

/-- Lines 147-179 of `prepare_computer`, after a source object has been
found: the period/coordinate keys, then the raw / aggregate / interpolate /
index tasks. `c.require_compat` (line 138) registers operators and adds no
graph key, so it has no counterpart here. Returns the new graph and the two
returned keys (lines 163, 175, 179). -/
def finishTasks (c : Computer) (ctx : ModelContext) (sourceObj : Provider)
    (measure : String) : Computer × (GKey × GKey) :=
  let c0 := structureYKeys c ctx
  let k := measureKey measure
  let kRaw := k.addTag sourceObj.id
  let c1 := dictSet c0 (CKey.key kRaw) (Task.source sourceObj)
  let c2 := dictSet c1 (CKey.key (kRaw.addTag "agg"))
    (Task.aggregate (CKey.key kRaw) (CKey.str "n::groups") false)
  let c3 := dictSet c2 (CKey.key k)
    (Task.interpolate (CKey.key (kRaw.addTag "agg")) (CKey.str "y::coords") "extrapolate")
  let kIndexed := k.addTag "y0 indexed"
  let c4 := dictSet c3 (CKey.key kIndexed) (Task.indexTo (CKey.key k) (CKey.str "y0::coord"))
  (c4, (k, kIndexed))

/-- `prepare_computer`, lines 77-179. Returns the log entries plus either the
error raised or the updated graph together with the returned key tuple.
The two `strict`-flagged additions (`"n::codes"`, `"n::groups"`) can raise;
all failure paths occur before any data-retrieval task is added. -/
def prepareComputer (sources : List (String × ProviderClass)) (ctx : ModelContext)
    (c : Computer) (source : String) (kw : SourceKw) (strict : Bool) :
    List LogEntry × Except String (Computer × (GKey × GKey)) :=
  let measure := resolvedMeasure kw
  let logs := measureLog kw
  match lookupSource (sources.map Prod.snd) source kw with
  | none => (logs, Except.error ("No source found that can handle " ++ pyRepr source))
  | some sourceObj =>
    (logs,
      match c.addKey strict (CKey.str "n::codes")
          (Task.quotedNodeCodes ("node/" ++ ctx.regions)) with
      | Except.error e => Except.error e
      | Except.ok c1 =>
        match c1.addKey strict (CKey.str "n::groups")
            (Task.codelistToGroups (CKey.str "n::codes")) with
        | Except.error e => Except.error e
        | Except.ok c2 => Except.ok (finishTasks c2 ctx sourceObj measure))

/-- `register_source`, lines 182-187: reject a duplicate `cls.id`, otherwise
extend the registry (Python dicts preserve insertion order). The real error
message also interpolates the registered class's repr. -/
def registerSource (sources : List (String × ProviderClass)) (cls : ProviderClass) :
    Except String (List (String × ProviderClass)) :=
  if (alookup sources cls.id).isSome then
    Except.error ("already registered for id " ++ pyRepr cls.id)
  else Except.ok (sources ++ [(cls.id, cls)])

/-- A sequence of `register_source` calls; a raised `ValueError` leaves the
registry as it was. -/
def registerAll (sources : List (String × ProviderClass)) (clsList : List ProviderClass) :
    List (String × ProviderClass) :=
  clsList.foldl
    (fun s cls => match registerSource s cls with | Except.ok s2 => s2 | Except.error _ => s)
    sources

/-- `DemoSource.random_data`, lines 225-237: random data with dimensions
n, y, s, v (the values are irrelevant to the dimension contract). -/
def demoRandomData : Quantity := { dims := ["n", "y", "s", "v"] }

/-- `DemoSource.__call__`, lines 218-223: select on the prepared indexers
with `drop=True`. -/
def demoCallFn (indexers : List (String × String)) : Quantity :=
  select demoRandomData indexers true

/-- `DemoSource.__init__`, lines 204-216. `source.partition("test ")` puts
the text after the separator in `scenario`; under the `startswith` guard that
is `source[5:]`. A measure other than `"POP"`/`"GDP"` (or a missing one)
raises `KeyError` on the dict lookup, hence `none`. -/
def demoInit (source : String) (kw : SourceKw) : Option Provider :=
  if strStartsWith source "test " then
    let scenario := strDrop source 5
    match alookup kw "measure" with
    | some m =>
      if m = "POP" then
        some { id := "DEMO", call := demoCallFn [("s", scenario), ("v", "Population")] }
      else if m = "GDP" then
        some { id := "DEMO", call := demoCallFn [("s", scenario), ("v", "GDP")] }
      else none
    | none => none
  else none

/-- The `DemoSource` class (`id = "DEMO"`), lines 190-237. -/
def demoClass : ProviderClass := { id := "DEMO", init := demoInit }

/-- `SOURCES` after module initialisation: the module-level
`@register_source` decoration of `DemoSource` applied to the empty registry. -/
def initialSources : List (String × ProviderClass) := [("DEMO", demoClass)]

theorem initialSources_eq_register :
    registerSource [] demoClass = Except.ok initialSources := rfl

end ExoData

namespace Water

/-! Embedding of `message_ix_models/model/water/data/water_for_ppl.py`.

The module is pandas ETL; frames are embedded as lists of row structures
carrying the columns the claims touch, and external reads (CSV files, the
scenario's parameters) are function parameters. -/

/-- `cooling_fr`, lines 140-157: heat plants (`"hpl"` in the parent-tech
`index` column) use `value - 1`; all other technologies use
`value - value * 0.1 - 1`. -/
def cooling_fr (index : String) (value : ℚ) : ℚ :=
  if containsSub "hpl".data index.data then value - 1
  else value - value * (1 / 10) - 1

/-- Line 90: `ref_input["cooling_fraction"] = ref_input["value"] * 0.9 - 1`. -/
def refInputCoolingFraction (value : ℚ) : ℚ := value * (9 / 10) - 1

/-- Component 0 of `str(x).split("__")` — the derivation of `parent_tech`
from `technology_name` (the pandas `apply`/`drop(columns=1)` keeps column 0
of the split). -/
def splitParentComponent (name : String) : String :=
  String.mk (untilSep "__".data name.data)

/-- `cool_tech`, lines 68-72: the `parent_tech` column. -/
def coolTechParent (name : String) : String := splitParentComponent name

/-- `non_cooling_tec`, lines 746-750: the `parent_tech` column. -/
def nonCoolingParent (name : String) : String := splitParentComponent name

/-- A row of the basin-delineation file
`basins_by_region_simpl_R11.csv` (columns `BCU_name`, `REGION`). -/
structure BasinRow where
  bcuName : String
  regionCode : String
deriving DecidableEq

/-- Line 58: `df_node["node"] = "B" + BCU_name`. -/
def basinNode (b : BasinRow) : String := "B" ++ b.bcuName

/-- Line 59: `df_node["mode"] = "M" + BCU_name`. -/
def basinMode (b : BasinRow) : String := "M" ++ b.bcuName

/-- Line 60: `df_node["region"] = "R11_" + REGION`. -/
def basinRegion (b : BasinRow) : String := "R11_" ++ b.regionCode

/-- A row of `input_cool` after the filtering of lines 119-138 (cooling-tech
rows joined with the parent technologies' scenario `input` rows), with the
columns the later steps read. -/
structure CoolRow where
  index : String
  technologyName : String
  nodeLoc : String
  nodeOrigin : String
  yearVtg : Int
  yearAct : Int
  mode : String
  value : ℚ
  waterWithdrawal : ℚ
  parasiticFrac : ℚ
deriving DecidableEq

/-- Line 159: the `cooling_fraction` column of `input_cool`. -/
def coolRowFraction (r : CoolRow) : ℚ := cooling_fr r.index r.value

/-- Lines 162-170: `value_cool = water_withdrawal * 60*60*24*365*1e-9 /
cooling_fraction`. -/
def coolRowValueCool (r : CoolRow) : ℚ :=
  r.waterWithdrawal * 60 * 60 * 24 * 365 / 1000000000 / coolRowFraction r

/-- Line 184: rows requiring parasitic electricity. -/
def electrRows (rows : List CoolRow) : List CoolRow :=
  rows.filter (fun r => 0 < r.parasiticFrac)

/-- Lines 187-189: their `value_cool`. -/
def electrValueCool (r : CoolRow) : ℚ := r.parasiticFrac / coolRowFraction r

/-- Lines 191-193: rows requiring saline water supply. -/
def salineRows (rows : List CoolRow) : List CoolRow :=
  rows.filter (fun r => strEndsWith r.technologyName "ot_saline")

/-- Lines 196-198: `input_cool` minus the saline and air rows. -/
def icmseRows (rows : List CoolRow) : List CoolRow :=
  rows.filter (fun r =>
    !(strEndsWith r.technologyName "ot_saline") && !(strEndsWith r.technologyName "air"))

/-- A row of a MESSAGE `input` parameter frame: the columns that `make_df`
fills for the `input` parameter in this module. -/
structure ParRow where
  nodeLoc : String
  technology : String
  yearVtg : Int
  yearAct : Int
  mode : String
  nodeOrigin : String
  commodity : String
  level : String
  timeCol : String
  timeOrigin : String
  value : ℚ
  unit : String
deriving DecidableEq

/-- One `make_df("input", ...)` row for a cooling-technology row. -/
def mkInputRow (r : CoolRow) (commodity level unit : String) (value : ℚ) : ParRow :=
  { nodeLoc := r.nodeLoc, technology := r.technologyName, yearVtg := r.yearVtg,
    yearAct := r.yearAct, mode := r.mode, nodeOrigin := r.nodeOrigin,
    commodity := commodity, level := level, timeCol := "year", timeOrigin := "year",
    value := value, unit := unit }

/-- Lines 200-250: the cooling-technology `input` table — electricity rows,
then freshwater rows, then saline rows (the `dropna` of line 253 drops
nothing here because every modelled row carries a value). -/
def coolingInputRows (rows : List CoolRow) : List ParRow :=
  (electrRows rows).map (fun r => mkInputRow r "electr" "secondary" "GWa" (electrValueCool r))
    ++ (icmseRows rows).map
      (fun r => mkInputRow r "freshwater_supply" "water_supply" "km3/GWa" (coolRowValueCool r))
    ++ (salineRows rows).map
      (fun r => mkInputRow r "saline_supply_ppl" "water_supply" "km3/GWa" (coolRowValueCool r))

/-- Lines 644-656: the nexus-mode `input` table linking water supply to the
`water_to_en` dummy technology, one row per basin broadcast over
`year_vtg`/`year_act` in `info.Y`. -/
def nexusInputRows (basins : List BasinRow) (years : List Int) : List ParRow :=
  basins.flatMap (fun b => years.flatMap (fun yv => years.map (fun ya =>
    { nodeLoc := basinRegion b, technology := "water_to_en", yearVtg := yv,
      yearAct := ya, mode := basinMode b, nodeOrigin := basinNode b,
      commodity := "freshwater_supply_basin", level := "water_supply_basin",
      timeCol := "year", timeOrigin := "year", value := 1, unit := "-" })))

/-- The values stored in the `results` dict. Only the two `input` tables are
examined by a claim; the other parameter tables are abstracted to tagged
constructors (`technicalLifetime` records the year list it is broadcast
over). -/
inductive ParTable where
  | input (rows : List ParRow)
  | histActivity
  | histNewCapacity
  | invCost
  | addonConversion
  | addonLo
  | technicalLifetime (years : List Int)
  | output
  | capacityFactor
  | varCost
  | shareModeUp
deriving DecidableEq

/-- The pieces of the `Context` that `cool_tech` reads or writes:
`context.nexus_set`, `context.regions`, `context.type_reg`, and the
`"water build info"` entry's `Y` (model years) and `N` (nodes); `rest`
stands for every other entry of the context mapping. -/
structure WaterContext where
  nexusSet : String
  regions : String
  typeReg : String
  Y : List Int
  N : List String
  rest : List (String × String)
deriving DecidableEq

/-- The external inputs of `cool_tech`: the basin-delineation CSV rows and
the joined/filtered `input_cool` rows. -/
structure CoolTechData where
  basinRows : List BasinRow
  inputCool : List CoolRow
deriving DecidableEq

/-- `cool_tech`, lines 14-715, at the level of the `results` dict assembly:
the sequence and order of `results[...] = ...` assignments, the in-place
insertion of 2010 into `info.Y` (lines 512-516), and the two mode branches.
Returns the dict and the context as it stands after the call (only the
shared `info.Y` list is mutated). -/
def coolTech (ctx : WaterContext) (data : CoolTechData) :
    List (String × ParTable) × WaterContext :=
  let inp := coolingInputRows data.inputCool
  let results := dictSet ([] : List (String × ParTable)) "input" (ParTable.input inp)
  let results := dictSet results "historical_activity" ParTable.histActivity
  let results := dictSet results "historical_new_capacity" ParTable.histNewCapacity
  let results := dictSet results "inv_cost" ParTable.invCost
  let results := dictSet results "addon_conversion" ParTable.addonConversion
  let results := dictSet results "addon_lo" ParTable.addonLo
  let year := if (2010 : Int) ∈ ctx.Y then ctx.Y else 2010 :: ctx.Y
  let ctxOut := { ctx with Y := year }
  let results := dictSet results "technical_lifetime" (ParTable.technicalLifetime year)
  let results :=
    if ctx.nexusSet = "cooling" then dictSet results "output" ParTable.output else results
  let results := dictSet results "capacity_factor" ParTable.capacityFactor
  let results :=
    if ctx.nexusSet = "nexus" then
      let results := dictSet results "output" ParTable.output
      let results := dictSet results "input" (ParTable.input (nexusInputRows data.basinRows year))
      let results := dictSet results "var_cost" ParTable.varCost
      dictSet results "share_mode_up" ParTable.shareModeUp
    else results
  (results, ctxOut)

end Water

theorem untilSep_append_sep (c : List Char) : ∀ (p : List Char),
    containsSub ['_', '_'] p = false → p.getLast? ≠ some '_' →
    untilSep ['_', '_'] (p ++ '_' :: '_' :: c) = p := by
  intro p
  induction p with
  | nil =>
    intro _ _
    unfold untilSep
    simp [List.isPrefixOf]
  | cons x p2 ih =>
    intro h1 h2
    rw [containsSub] at h1
    have h1a := (Bool.or_eq_false_iff.mp h1).1
    have h1b := (Bool.or_eq_false_iff.mp h1).2
    have h2a : p2.getLast? ≠ some '_' := by
      cases p2 with
      | nil => simp
      | cons y p3 => rw [List.getLast?_cons_cons] at h2; exact h2
    have hfalse : (['_', '_'].isPrefixOf (x :: (p2 ++ '_' :: '_' :: c))) = false := by
      by_cases hx : x = '_'
      · subst hx
        cases p2 with
        | nil => exact absurd rfl h2
        | cons y p3 =>
          by_cases hy : y = '_'
          · subst hy
            simp [List.isPrefixOf] at h1a
          · simp [List.isPrefixOf, hy]
            exact fun he => hy he.symm
      · simp [List.isPrefixOf, hx]
        exact fun he => absurd he.symm hx
    show untilSep ['_', '_'] (x :: (p2 ++ '_' :: '_' :: c)) = x :: p2
    rw [untilSep, hfalse]
    simp [ih h1b h2a]

namespace ExoData

theorem foldl_sourceStep_none (source : String) (kw : SourceKw) :
    ∀ (l : List ProviderClass) (acc : Option Provider),
      (∀ cls ∈ l, cls.init source kw = none) →
      l.foldl (sourceStep source kw) acc = acc := by
  intro l
  induction l with
  | nil => intro acc _; rfl
  | cons cls rest ih =>
    intro acc h
    have hc : cls.init source kw = none := h cls (List.mem_cons_self cls rest)
    rw [List.foldl_cons]
    have hstep : sourceStep source kw acc cls = acc := by
      unfold sourceStep
      rw [hc]
    rw [hstep]
    exact ih acc (fun c2 hc2 => h c2 (List.mem_cons_of_mem cls hc2))

theorem lookupSource_eq_none (registry : List ProviderClass) (source : String)
    (kw : SourceKw) (h : ∀ cls ∈ registry, cls.init source kw = none) :
    lookupSource registry source kw = none :=
  foldl_sourceStep_none source kw registry none h

theorem prepareComputer_error_of_none (sources : List (String × ProviderClass))
    (ctx : ModelContext) (c : Computer) (source : String) (kw : SourceKw) (strict : Bool)
    (hl : lookupSource (sources.map Prod.snd) source kw = none) :
    (prepareComputer sources ctx c source kw strict).2 =
      Except.error ("No source found that can handle " ++ pyRepr source) := by
  simp [prepareComputer, hl]

/-- C2: when no registered class accepts the arguments (every trial
instantiation raises), `prepare_computer` raises `ValueError` with the
"No source found" message; the raise happens before any task is added, so
the returned value carries no updated graph at all. -/
theorem prepare_computer_no_source (sources : List (String × ProviderClass))
    (ctx : ModelContext) (c : Computer) (source : String) (kw : SourceKw) (strict : Bool)
    (h : ∀ cls ∈ sources.map Prod.snd, cls.init source kw = none) :
    (prepareComputer sources ctx c source kw strict).2 =
      Except.error ("No source found that can handle " ++ pyRepr source) :=
  prepareComputer_error_of_none sources ctx c source kw strict
    (lookupSource_eq_none (sources.map Prod.snd) source kw h)

/-- `context.model.regions = "R12"`, `context.model.years = "B"`: a concrete
context for witnesses. -/
def demoCtx : ModelContext := { regions := "R12", years := "B" }

theorem prepare_computer_no_source_witness :
    (∀ cls ∈ (initialSources.map Prod.snd), cls.init "nope" [] = none) ∧
    (prepareComputer initialSources demoCtx [] "nope" [] true).2 =
      Except.error ("No source found that can handle " ++ pyRepr "nope") := by
  have h : ∀ cls ∈ (initialSources.map Prod.snd), cls.init "nope" [] = none := by
    intro cls hc
    simp [initialSources] at hc
    subst hc
    rfl
  exact ⟨h, prepare_computer_no_source initialSources demoCtx [] "nope" [] true h⟩

/-- C10: the trial-instantiation loop tries every registered class in
registry order and keeps the instance of the last class whose constructor
succeeds; a class accepted earlier (`cls1` here) is overwritten, and any
class that raises counts as non-recognition. -/
theorem lookup_last_accepting_wins (pre mid post : List ProviderClass)
    (cls1 cls2 : ProviderClass) (source : String) (kw : SourceKw) (p1 p2 : Provider)
    (h1 : cls1.init source kw = some p1) (h2 : cls2.init source kw = some p2)
    (hpost : ∀ cls ∈ post, cls.init source kw = none) :
    lookupSource (pre ++ cls1 :: mid ++ cls2 :: post) source kw = some p2 := by
  unfold lookupSource
  rw [List.foldl_append, List.foldl_cons, List.foldl_append, List.foldl_cons]
  have hstep2 : ∀ acc, sourceStep source kw acc cls2 = some p2 := by
    intro acc
    unfold sourceStep
    rw [h2]
  rw [hstep2]
  exact foldl_sourceStep_none source kw post (some p2) hpost

/-- A class accepting every request, used to exercise the loop. -/
def permA : ProviderClass :=
  { id := "A", init := fun _ _ => some { id := "A", call := { dims := ["n", "y"] } } }

/-- A second accepting class, registered after `permA`. -/
def permB : ProviderClass :=
  { id := "B", init := fun _ _ => some { id := "B", call := { dims := ["n", "y"] } } }

/-- A class whose constructor always raises. -/
def rejectC : ProviderClass := { id := "C", init := fun _ _ => none }

theorem lookup_last_accepting_wins_witness :
    permA.init "src" [] = some { id := "A", call := { dims := ["n", "y"] } } ∧
    permB.init "src" [] = some { id := "B", call := { dims := ["n", "y"] } } ∧
    (∀ cls ∈ [rejectC], cls.init "src" [] = none) ∧
    lookupSource ([] ++ permA :: [] ++ permB :: [rejectC]) "src" [] =
      some { id := "B", call := { dims := ["n", "y"] } } := by
  have hpost : ∀ cls ∈ [rejectC], cls.init "src" [] = none := by
    intro cls hc
    rw [List.mem_singleton] at hc
    subst hc
    rfl
  exact ⟨rfl, rfl, hpost,
    lookup_last_accepting_wins [] [] [rejectC] permA permB "src" [] _ _ rfl rfl hpost⟩

theorem alookup_eq_none_iff_not_mem {α : Type} (s : List (String × α)) (k : String) :
    alookup s k = none ↔ k ∉ s.map Prod.fst := by
  induction s with
  | nil => simp [alookup]
  | cons p rest ih =>
    by_cases h : k = p.1
    · simp [alookup, h]
    · simp [alookup, h, ih]

/-- C4: `register_source` adds `cls` under `cls.id` and returns it when the
id is free, raises `ValueError` when the id is taken (the registry argument
is untouched in that case), and any sequence of `register_source` calls
preserves distinctness of the registered identifiers. -/
theorem register_source_unique_ids (sources : List (String × ProviderClass))
    (cls : ProviderClass) (clsList : List ProviderClass) :
    (alookup sources cls.id = none →
      registerSource sources cls = Except.ok (sources ++ [(cls.id, cls)])) ∧
    ((alookup sources cls.id).isSome = true →
      registerSource sources cls =
        Except.error ("already registered for id " ++ pyRepr cls.id)) ∧
    ((sources.map Prod.fst).Nodup → ((registerAll sources clsList).map Prod.fst).Nodup) := by
  refine ⟨?_, ?_, ?_⟩
  · intro h
    unfold registerSource
    rw [h]
    rfl
  · intro h
    unfold registerSource
    rw [h]
    rfl
  · have step : ∀ (s : List (String × ProviderClass)) (c2 : ProviderClass),
        (s.map Prod.fst).Nodup →
        (((match registerSource s c2 with
          | Except.ok s2 => s2
          | Except.error _ => s).map Prod.fst)).Nodup := by
      intro s c2 hs
      unfold registerSource
      by_cases h : (alookup s c2.id).isSome
      · simp [h]
        exact hs
      · have hn : alookup s c2.id = none := by
          cases hv : alookup s c2.id with
          | none => rfl
          | some v => rw [hv] at h; simp at h
        simp [h]
        rw [List.nodup_append]
        refine ⟨hs, List.nodup_singleton _, ?_⟩
        intro a ha hb
        rw [List.mem_singleton] at hb
        subst hb
        exact (alookup_eq_none_iff_not_mem s c2.id).mp hn ha
    intro h0
    unfold registerAll
    induction clsList generalizing sources with
    | nil => exact h0
    | cons c2 rest ih =>
      rw [List.foldl_cons]
      exact ih _ (step sources c2 h0)

/-- C3: every provider in the registry as shipped (only `DemoSource`) whose
constructor accepts the given `source` and `source_kw` returns, when invoked,
a quantity whose dimensions are exactly n and y — the select on the `s` and
`v` indexers with `drop=True` removes the extra dimensions of the
4-dimensional raw data — and in particular at least n and y. -/
theorem registered_source_call_dims (entry : String × ProviderClass)
    (hmem : entry ∈ initialSources) (source : String) (kw : SourceKw) (p : Provider)
    (hinit : entry.2.init source kw = some p) :
    p.call.dims = ["n", "y"] ∧ "n" ∈ p.call.dims ∧ "y" ∈ p.call.dims := by
  have he : entry = ("DEMO", demoClass) := by
    simpa [initialSources] using hmem
  subst he
  have hcall : p.call = { dims := ["n", "y"] } := by
    simp only [demoClass] at hinit
    unfold demoInit at hinit
    by_cases hs : strStartsWith source "test " = true
    · rw [if_pos hs] at hinit
      cases hkw : alookup kw "measure" with
      | none => rw [hkw] at hinit; exact absurd hinit (by simp)
      | some m =>
        rw [hkw] at hinit
        have hinit2 : (if m = "POP" then
            some { id := "DEMO",
                   call := demoCallFn [("s", strDrop source 5), ("v", "Population")] }
          else if m = "GDP" then
            some { id := "DEMO",
                   call := demoCallFn [("s", strDrop source 5), ("v", "GDP")] }
          else none) = some p := hinit
        by_cases hm : m = "POP"
        · rw [if_pos hm] at hinit2
          have hp := (Option.some.injEq _ _).mp hinit2
          rw [← hp]
          simp [demoCallFn, select, demoRandomData, alookup]
        · rw [if_neg hm] at hinit2
          by_cases hg : m = "GDP"
          · rw [if_pos hg] at hinit2
            have hp := (Option.some.injEq _ _).mp hinit2
            rw [← hp]
            simp [demoCallFn, select, demoRandomData, alookup]
          · rw [if_neg hg] at hinit2
            exact absurd hinit2 (by simp)
    · rw [if_neg hs] at hinit
      exact absurd hinit (by simp)
  rw [hcall]
  exact ⟨rfl, by simp, by simp⟩

theorem registered_source_call_dims_witness :
    (("DEMO", demoClass) ∈ initialSources ∧
      ("DEMO", demoClass).2.init "test s1" [("measure", "POP")] =
        some { id := "DEMO", call := { dims := ["n", "y"] } }) ∧
    (({ id := "DEMO", call := { dims := ["n", "y"] } } : Provider).call.dims = ["n", "y"] ∧
      "n" ∈ ({ id := "DEMO", call := { dims := ["n", "y"] } } : Provider).call.dims ∧
      "y" ∈ ({ id := "DEMO", call := { dims := ["n", "y"] } } : Provider).call.dims) :=
  ⟨⟨List.mem_cons_self _ _, rfl⟩,
   registered_source_call_dims ("DEMO", demoClass) (List.mem_cons_self _ _)
     "test s1" [("measure", "POP")] _ rfl⟩

theorem prepareComputer_fst (sources : List (String × ProviderClass))
    (ctx : ModelContext) (c : Computer) (source : String) (kw : SourceKw) (strict : Bool) :
    (prepareComputer sources ctx c source kw strict).1 = measureLog kw := by
  unfold prepareComputer
  cases lookupSource (sources.map Prod.snd) source kw <;> rfl

theorem demoInit_none_of_bad_measure (source : String) (kw : SourceKw) (m : String)
    (hm : alookup kw "measure" = some m) (hnot : m ∉ MEASURES) :
    demoInit source kw = none := by
  have hp : m ≠ "POP" := by
    intro he
    exact hnot (by rw [he]; simp [MEASURES])
  have hg : m ≠ "GDP" := by
    intro he
    exact hnot (by rw [he]; simp [MEASURES])
  unfold demoInit
  by_cases hs : strStartsWith source "test " = true
  · rw [if_pos hs, hm]
    show (if m = "POP" then
        some ({ id := "DEMO",
                call := demoCallFn [("s", strDrop source 5), ("v", "Population")] } : Provider)
      else if m = "GDP" then
        some ({ id := "DEMO",
                call := demoCallFn [("s", strDrop source 5), ("v", "GDP")] } : Provider)
      else none) = none
    rw [if_neg hp, if_neg hg]
  · rw [if_neg hs]

/-- C5 (amended): a `source_kw` "measure" outside `MEASURES` only triggers a
log warning (lines 117-121); `prepare_computer` still proceeds to the
provider lookup, and rejection happens only when no registered provider
accepts the request — which is the case for the registry as shipped, where
`DemoSource` recognizes only "POP" and "GDP". -/
theorem measure_check_warns_only (sources : List (String × ProviderClass))
    (ctx : ModelContext) (c : Computer) (source : String) (kw : SourceKw) (strict : Bool)
    (m : String) (hm : alookup kw "measure" = some m) (hnot : m ∉ MEASURES) :
    (m ≠ "" →
      (prepareComputer sources ctx c source kw strict).1 = [LogEntry.measureWarning m]) ∧
    (prepareComputer initialSources ctx c source kw strict).2 =
      Except.error ("No source found that can handle " ++ pyRepr source) := by
  constructor
  · intro hne
    rw [prepareComputer_fst]
    simp [measureLog, hm, hne, hnot]
  · apply prepareComputer_error_of_none
    apply lookupSource_eq_none
    intro cls hc
    simp [initialSources] at hc
    subst hc
    show demoInit source kw = none
    exact demoInit_none_of_bad_measure source kw m hm hnot

theorem measure_check_warns_only_witness :
    (alookup [("measure", "XXX")] "measure" = some "XXX" ∧ "XXX" ∉ MEASURES ∧
      ("XXX" : String) ≠ "") ∧
    (prepareComputer initialSources demoCtx [] "test s1" [("measure", "XXX")] true).1 =
      [LogEntry.measureWarning "XXX"] ∧
    (prepareComputer initialSources demoCtx [] "test s1" [("measure", "XXX")] true).2 =
      Except.error ("No source found that can handle " ++ pyRepr "test s1") := by
  have h := measure_check_warns_only initialSources demoCtx [] "test s1"
    [("measure", "XXX")] true "XXX" rfl (by decide)
  exact ⟨⟨rfl, by decide, by decide⟩, h.1 (by decide), h.2⟩

/-- The tag of a graph key, when it is a structured key. -/
def ckeyTag : CKey → Option String
  | CKey.key g => g.tag
  | CKey.str _ => none

/-- C1: whenever `prepare_computer` succeeds for a recognized source (with a
provider id distinct from the literal tag "y0 indexed", as every real id is),
the returned pair is (interpolated key, indexed key) in that order — the
first named by the lower-cased measure with dimensions n, y — and the graph
wires raw data (tagged with the provider id) into "aggregate" over
"n::groups", the aggregate into "interpolate" over "y::coords" with
extrapolation, and the interpolated node into "index_to" with "y0::coord". -/
theorem prepare_computer_wiring (sources : List (String × ProviderClass))
    (ctx : ModelContext) (c : Computer) (source : String) (kw : SourceKw) (strict : Bool)
    (cOut : Computer) (k1 k2 : GKey) (p : Provider)
    (hp : lookupSource (sources.map Prod.snd) source kw = some p)
    (hid : p.id ≠ "y0 indexed")
    (hok : (prepareComputer sources ctx c source kw strict).2 = Except.ok (cOut, (k1, k2))) :
    k1.name = strLower (resolvedMeasure kw) ∧ k1.dims = ["n", "y"] ∧ k1.tag = none ∧
    k2 = k1.addTag "y0 indexed" ∧
    alookup cOut (CKey.key (k1.addTag p.id)) = some (Task.source p) ∧
    alookup cOut (CKey.key ((k1.addTag p.id).addTag "agg")) =
      some (Task.aggregate (CKey.key (k1.addTag p.id)) (CKey.str "n::groups") false) ∧
    alookup cOut (CKey.key k1) = some (Task.interpolate
      (CKey.key ((k1.addTag p.id).addTag "agg")) (CKey.str "y::coords") "extrapolate") ∧
    alookup cOut (CKey.key k2) =
      some (Task.indexTo (CKey.key k1) (CKey.str "y0::coord")) := by
  unfold prepareComputer at hok
  rw [hp] at hok
  have hok2 : (match Computer.addKey c strict (CKey.str "n::codes")
      (Task.quotedNodeCodes ("node/" ++ ctx.regions)) with
    | Except.error e => Except.error e
    | Except.ok c1 =>
      match Computer.addKey c1 strict (CKey.str "n::groups")
          (Task.codelistToGroups (CKey.str "n::codes")) with
      | Except.error e => Except.error e
      | Except.ok c2 =>
        Except.ok (finishTasks c2 ctx p (resolvedMeasure kw))) =
      Except.ok (cOut, (k1, k2)) := hok
  cases hadd1 : Computer.addKey c strict (CKey.str "n::codes")
      (Task.quotedNodeCodes ("node/" ++ ctx.regions)) with
  | error e => rw [hadd1] at hok2; exact absurd hok2 (by simp)
  | ok c1 =>
    rw [hadd1] at hok2
    have hok3 : (match Computer.addKey c1 strict (CKey.str "n::groups")
        (Task.codelistToGroups (CKey.str "n::codes")) with
      | Except.error e => Except.error e
      | Except.ok c2 =>
        Except.ok (finishTasks c2 ctx p (resolvedMeasure kw))) =
        Except.ok (cOut, (k1, k2)) := hok2
    cases hadd2 : Computer.addKey c1 strict (CKey.str "n::groups")
        (Task.codelistToGroups (CKey.str "n::codes")) with
    | error e => rw [hadd2] at hok3; exact absurd hok3 (by simp)
    | ok c2 =>
      rw [hadd2] at hok3
      have hf : finishTasks c2 ctx p (resolvedMeasure kw) = (cOut, (k1, k2)) := by
        injection hok3
      have hc : cOut = (finishTasks c2 ctx p (resolvedMeasure kw)).1 := by rw [hf]
      have hk1 : k1 = (finishTasks c2 ctx p (resolvedMeasure kw)).2.1 := by rw [hf]
      have hk2 : k2 = (finishTasks c2 ctx p (resolvedMeasure kw)).2.2 := by rw [hf]
      subst hc
      subst hk1
      subst hk2
      have e1 : (finishTasks c2 ctx p (resolvedMeasure kw)).2.1 =
        measureKey (resolvedMeasure kw) := rfl
      have e2 : (finishTasks c2 ctx p (resolvedMeasure kw)).2.2 =
        (measureKey (resolvedMeasure kw)).addTag "y0 indexed" := rfl
      have e4 : (finishTasks c2 ctx p (resolvedMeasure kw)).1 =
        dictSet (dictSet (dictSet (dictSet (structureYKeys c2 ctx)
          (CKey.key ((measureKey (resolvedMeasure kw)).addTag p.id)) (Task.source p))
          (CKey.key (((measureKey (resolvedMeasure kw)).addTag p.id).addTag "agg"))
          (Task.aggregate (CKey.key ((measureKey (resolvedMeasure kw)).addTag p.id))
            (CKey.str "n::groups") false))
          (CKey.key (measureKey (resolvedMeasure kw)))
          (Task.interpolate
            (CKey.key (((measureKey (resolvedMeasure kw)).addTag p.id).addTag "agg"))
            (CKey.str "y::coords") "extrapolate"))
          (CKey.key ((measureKey (resolvedMeasure kw)).addTag "y0 indexed"))
          (Task.indexTo (CKey.key (measureKey (resolvedMeasure kw)))
            (CKey.str "y0::coord")) := rfl
      have hRA : CKey.key ((measureKey (resolvedMeasure kw)).addTag p.id) ≠
          CKey.key (((measureKey (resolvedMeasure kw)).addTag p.id).addTag "agg") := by
        intro h
        have h2 := congrArg ckeyTag h
        simp only [ckeyTag] at h2
        simp [GKey.addTag, measureKey] at h2
        exact ne_append_plus_agg p.id h2
      have hRM : CKey.key ((measureKey (resolvedMeasure kw)).addTag p.id) ≠
          CKey.key (measureKey (resolvedMeasure kw)) := by
        intro h
        have h2 := congrArg ckeyTag h
        simp only [ckeyTag] at h2
        simp [GKey.addTag, measureKey] at h2
      have hRI : CKey.key ((measureKey (resolvedMeasure kw)).addTag p.id) ≠
          CKey.key ((measureKey (resolvedMeasure kw)).addTag "y0 indexed") := by
        intro h
        have h2 := congrArg ckeyTag h
        simp only [ckeyTag] at h2
        simp [GKey.addTag, measureKey] at h2
        exact hid h2
      have hAM : CKey.key (((measureKey (resolvedMeasure kw)).addTag p.id).addTag "agg") ≠
          CKey.key (measureKey (resolvedMeasure kw)) := by
        intro h
        have h2 := congrArg ckeyTag h
        simp only [ckeyTag] at h2
        simp [GKey.addTag, measureKey] at h2
      have hAI : CKey.key (((measureKey (resolvedMeasure kw)).addTag p.id).addTag "agg") ≠
          CKey.key ((measureKey (resolvedMeasure kw)).addTag "y0 indexed") := by
        intro h
        have h2 := congrArg ckeyTag h
        simp only [ckeyTag] at h2
        simp [GKey.addTag, measureKey] at h2
        exact append_plus_agg_ne p.id h2
      have hMI : CKey.key (measureKey (resolvedMeasure kw)) ≠
          CKey.key ((measureKey (resolvedMeasure kw)).addTag "y0 indexed") := by
        intro h
        have h2 := congrArg ckeyTag h
        simp only [ckeyTag] at h2
        simp [GKey.addTag, measureKey] at h2
      refine ⟨rfl, rfl, rfl, rfl, ?_, ?_, ?_, ?_⟩
      · rw [e4, e1]
        rw [alookup_dictSet_ne _ _ _ _ hRI, alookup_dictSet_ne _ _ _ _ hRM,
          alookup_dictSet_ne _ _ _ _ hRA]
        exact alookup_dictSet_self _ _ _
      · rw [e4, e1]
        rw [alookup_dictSet_ne _ _ _ _ hAI, alookup_dictSet_ne _ _ _ _ hAM]
        exact alookup_dictSet_self _ _ _
      · rw [e4, e1]
        rw [alookup_dictSet_ne _ _ _ _ hMI]
        exact alookup_dictSet_self _ _ _
      · rw [e4, e2, e1]
        exact alookup_dictSet_self _ _ _

/-- Pull the payload out of a successful `prepareComputer` result. -/
def okParts (e : Except String (Computer × (GKey × GKey))) : Computer × (GKey × GKey) :=
  match e with
  | Except.ok x => x
  | Except.error _ =>
    ([], ({ name := "", dims := [], tag := none }, { name := "", dims := [], tag := none }))

/-- A concrete successful run of `prepareComputer` on the shipped registry. -/
def demoRun : List LogEntry × Except String (Computer × (GKey × GKey)) :=
  prepareComputer initialSources demoCtx [] "test s1" [("measure", "GDP")] true

theorem prepare_computer_wiring_witness :
    lookupSource (initialSources.map Prod.snd) "test s1" [("measure", "GDP")] =
      some { id := "DEMO", call := { dims := ["n", "y"] } } ∧
    ({ id := "DEMO", call := { dims := ["n", "y"] } } : Provider).id ≠ "y0 indexed" ∧
    demoRun.2 = Except.ok
      ((okParts demoRun.2).1, ((okParts demoRun.2).2.1, (okParts demoRun.2).2.2)) ∧
    ((okParts demoRun.2).2.1.name = strLower (resolvedMeasure [("measure", "GDP")]) ∧
      (okParts demoRun.2).2.1.dims = ["n", "y"] ∧ (okParts demoRun.2).2.1.tag = none ∧
      (okParts demoRun.2).2.2 = (okParts demoRun.2).2.1.addTag "y0 indexed" ∧
      alookup (okParts demoRun.2).1
          (CKey.key ((okParts demoRun.2).2.1.addTag
            ({ id := "DEMO", call := { dims := ["n", "y"] } } : Provider).id)) =
        some (Task.source { id := "DEMO", call := { dims := ["n", "y"] } }) ∧
      alookup (okParts demoRun.2).1
          (CKey.key (((okParts demoRun.2).2.1.addTag
            ({ id := "DEMO", call := { dims := ["n", "y"] } } : Provider).id).addTag "agg")) =
        some (Task.aggregate
          (CKey.key ((okParts demoRun.2).2.1.addTag
            ({ id := "DEMO", call := { dims := ["n", "y"] } } : Provider).id))
          (CKey.str "n::groups") false) ∧
      alookup (okParts demoRun.2).1 (CKey.key (okParts demoRun.2).2.1) =
        some (Task.interpolate
          (CKey.key (((okParts demoRun.2).2.1.addTag
            ({ id := "DEMO", call := { dims := ["n", "y"] } } : Provider).id).addTag "agg"))
          (CKey.str "y::coords") "extrapolate") ∧
      alookup (okParts demoRun.2).1 (CKey.key (okParts demoRun.2).2.2) =
        some (Task.indexTo (CKey.key (okParts demoRun.2).2.1) (CKey.str "y0::coord"))) := by
  refine ⟨rfl, by decide, rfl, ?_⟩
  exact prepare_computer_wiring initialSources demoCtx [] "test s1" [("measure", "GDP")]
    true (okParts demoRun.2).1 (okParts demoRun.2).2.1 (okParts demoRun.2).2.2
    { id := "DEMO", call := { dims := ["n", "y"] } } rfl (by decide) rfl

/-- `Except.isOk` spelled out for the result type of `prepareComputer`. -/
def isOkE {α : Type} (e : Except String α) : Bool :=
  match e with
  | Except.ok _ => true
  | Except.error _ => false

/-- A provider class that accepts every `source` and `source_kw`
(`register_source` places no constraint on what a constructor accepts). -/
def permSource : ProviderClass :=
  { id := "PERM", init := fun _ _ => some { id := "PERM", call := { dims := ["n", "y"] } } }

/-- C5 counterexample: with a registered provider class that accepts every
request, `prepare_computer` accepts a `source_kw` whose "measure" is outside
`MEASURES` and adds its tasks — the enumeration is not enforced, only
warned about. -/
theorem measure_outside_enumeration_accepted :
    alookup [("measure", "BAD")] "measure" = some "BAD" ∧ "BAD" ∉ MEASURES ∧
    isOkE (prepareComputer [("PERM", permSource)] demoCtx [] "anything"
      [("measure", "BAD")] true).2 = true :=
  ⟨rfl, by decide, rfl⟩

theorem register_source_unique_ids_witness :
    (alookup ([] : List (String × ProviderClass)) demoClass.id = none ∧
      registerSource [] demoClass = Except.ok ([] ++ [(demoClass.id, demoClass)])) ∧
    ((alookup initialSources demoClass.id).isSome = true ∧
      registerSource initialSources demoClass =
        Except.error ("already registered for id " ++ pyRepr demoClass.id)) ∧
    ((([] : List (String × ProviderClass)).map Prod.fst).Nodup ∧
      ((registerAll [] [demoClass, demoClass]).map Prod.fst).Nodup) :=
  ⟨⟨rfl, (register_source_unique_ids [] demoClass []).1 rfl⟩,
   ⟨rfl, (register_source_unique_ids initialSources demoClass []).2.1 rfl⟩,
   ⟨List.nodup_nil, (register_source_unique_ids [] demoClass [demoClass, demoClass]).2.2
      List.nodup_nil⟩⟩

end ExoData

namespace Water

/-- C6 counterexample: for an ordinary (non-"hpl") technology with input
value exactly 1 — which the claim counts as valid — the computed cooling
fraction `value - value*0.1 - 1` is negative. -/
theorem cooling_fraction_negative_at_one :
    containsSub "hpl".data ("coal_ppl" : String).data = false ∧
    (1 : ℚ) ≤ 1 ∧ cooling_fr "coal_ppl" 1 < 0 := by
  have h : containsSub "hpl".data ("coal_ppl" : String).data = false := by decide
  refine ⟨h, le_refl 1, ?_⟩
  simp [cooling_fr, h]

/-- C6 (amended): the derived cooling fraction is nonnegative when the
parent input value is at least 1 for heat-plant ("hpl") technologies, but an
ordinary technology needs value at least 10/9 (at value 1 the fraction is
-0.1). -/
theorem cooling_fraction_nonneg (index : String) (value : ℚ) :
    (containsSub "hpl".data index.data = true → 1 ≤ value →
      0 ≤ cooling_fr index value) ∧
    (containsSub "hpl".data index.data = false → (10 : ℚ) / 9 ≤ value →
      0 ≤ cooling_fr index value) := by
  constructor
  · intro h hv
    simp [cooling_fr, h]
    linarith
  · intro h hv
    simp [cooling_fr, h]
    nlinarith

theorem cooling_fraction_nonneg_witness :
    (containsSub "hpl".data ("bio_hpl" : String).data = true ∧ (1 : ℚ) ≤ 1 ∧
      0 ≤ cooling_fr "bio_hpl" 1) ∧
    (containsSub "hpl".data ("coal_ppl" : String).data = false ∧
      (10 : ℚ) / 9 ≤ 10 / 9 ∧ 0 ≤ cooling_fr "coal_ppl" (10 / 9)) :=
  ⟨⟨by decide, le_refl 1,
      (cooling_fraction_nonneg "bio_hpl" 1).1 (by decide) (le_refl 1)⟩,
   ⟨by decide, le_refl _,
      (cooling_fraction_nonneg "coal_ppl" (10 / 9)).2 (by decide) (le_refl _)⟩⟩

/-- C7: for a cooling technology named `parent ++ "__" ++ coolingtype` (with
a parent name that does not itself contain the separator or end in an
underscore), both `cool_tech` and `non_cooling_tec` derive the parent
technology as the text before the `"__"` separator — component 0 of the
split — which is exactly `parent`. -/
theorem parent_tech_split (p c : String)
    (h1 : containsSub "__".data p.data = false)
    (h2 : p.data.getLast? ≠ some '_') :
    coolTechParent (p ++ "__" ++ c) = p ∧ nonCoolingParent (p ++ "__" ++ c) = p := by
  have hdata : (p ++ "__" ++ c).data = p.data ++ '_' :: '_' :: c.data := by
    rw [String.data_append, String.data_append]
    simp
  have hmain := untilSep_append_sep c.data p.data h1 h2
  constructor
  · show String.mk (untilSep ['_', '_'] (p ++ "__" ++ c).data) = p
    rw [hdata, hmain, strMk_data]
  · show String.mk (untilSep ['_', '_'] (p ++ "__" ++ c).data) = p
    rw [hdata, hmain, strMk_data]

theorem parent_tech_split_witness :
    containsSub "__".data ("coal_ppl" : String).data = false ∧
    ("coal_ppl" : String).data.getLast? ≠ some '_' ∧
    (coolTechParent ("coal_ppl" ++ "__" ++ "ot_fresh") = "coal_ppl" ∧
      nonCoolingParent ("coal_ppl" ++ "__" ++ "ot_fresh") = "coal_ppl") :=
  ⟨by decide, by decide, parent_tech_split "coal_ppl" "ot_fresh" (by decide) (by decide)⟩

/-- C8: in nexus mode the `"input"` entry of the returned dict is the
`water_to_en` linking table built from the basin-delineation rows —
overwriting the cooling-technology input table stored earlier in the same
call — so every returned input row links `freshwater_supply_basin` and none
carries the electricity, freshwater or saline cooling coefficients. -/
theorem cool_tech_nexus_input_replaced (ctx : WaterContext) (data : CoolTechData)
    (h : ctx.nexusSet = "nexus") :
    alookup (coolTech ctx data).1 "input" =
      some (ParTable.input (nexusInputRows data.basinRows (coolTech ctx data).2.Y)) ∧
    ∀ r ∈ nexusInputRows data.basinRows (coolTech ctx data).2.Y,
      r.technology = "water_to_en" ∧ r.commodity = "freshwater_supply_basin" ∧
      r.commodity ≠ "electr" ∧ r.commodity ≠ "freshwater_supply" ∧
      r.commodity ≠ "saline_supply_ppl" := by
  constructor
  · simp only [coolTech, h]
    simp [alookup_dictSet_self, alookup_dictSet_ne]
  · intro r hr
    simp only [nexusInputRows, List.mem_flatMap, List.mem_map] at hr
    obtain ⟨b, _, yv, _, ya, _, heq⟩ := hr
    rw [← heq]
    refine ⟨rfl, rfl, ?_, ?_, ?_⟩ <;> simp

/-- A nexus-mode context whose model horizon lacks 2010. -/
def ctxNexus : WaterContext :=
  { nexusSet := "nexus", regions := "R11", typeReg := "global", Y := [2020],
    N := ["World"], rest := [] }

/-- One basin row and no cooling rows, for concrete evaluation. -/
def dataNexus : CoolTechData :=
  { basinRows := [{ bcuName := "1", regionCode := "NAM" }], inputCool := [] }

theorem cool_tech_nexus_input_replaced_witness :
    ctxNexus.nexusSet = "nexus" ∧
    (alookup (coolTech ctxNexus dataNexus).1 "input" =
      some (ParTable.input
        (nexusInputRows dataNexus.basinRows (coolTech ctxNexus dataNexus).2.Y)) ∧
    ∀ r ∈ nexusInputRows dataNexus.basinRows (coolTech ctxNexus dataNexus).2.Y,
      r.technology = "water_to_en" ∧ r.commodity = "freshwater_supply_basin" ∧
      r.commodity ≠ "electr" ∧ r.commodity ≠ "freshwater_supply" ∧
      r.commodity ≠ "saline_supply_ppl") :=
  ⟨rfl, cool_tech_nexus_input_replaced ctxNexus dataNexus rfl⟩

/-- C9: `cool_tech` mutates the shared `info.Y` list of
`context["water build info"]` in place — when 2010 is absent it is inserted
at the front, when present the list is untouched — and every other field of
the context is unchanged. -/
theorem cool_tech_year_2010_insertion (ctx : WaterContext) (data : CoolTechData) :
    ((2010 : Int) ∉ ctx.Y → (coolTech ctx data).2.Y = 2010 :: ctx.Y) ∧
    ((2010 : Int) ∈ ctx.Y → (coolTech ctx data).2.Y = ctx.Y) ∧
    (coolTech ctx data).2.nexusSet = ctx.nexusSet ∧
    (coolTech ctx data).2.regions = ctx.regions ∧
    (coolTech ctx data).2.typeReg = ctx.typeReg ∧
    (coolTech ctx data).2.N = ctx.N ∧
    (coolTech ctx data).2.rest = ctx.rest := by
  refine ⟨?_, ?_, ?_, ?_, ?_, ?_, ?_⟩
  · intro h
    simp [coolTech, h]
  · intro h
    simp [coolTech, h]
  all_goals simp [coolTech]

theorem cool_tech_year_2010_insertion_witness :
    (2010 : Int) ∉ ctxNexus.Y ∧ (coolTech ctxNexus dataNexus).2.Y = 2010 :: ctxNexus.Y :=
  ⟨by decide, (cool_tech_year_2010_insertion ctxNexus dataNexus).1 (by decide)⟩

end Water
